import Mathlib

/-!
Verification of the task-lifecycle core of medea-test.py
(hub-cap/deimos, src/integration-test/medea-test.py).

The embedding is shallow: the protobuf messages become plain structures,
the mutable `Scheduler` object becomes a state record threaded through the
handlers, the driver side effects (launchTasks / killTask / stop and the
sum_up log line) become an explicit list of emitted `Action`s, and a Python
exception raised inside a handler becomes an `Option SchedErr` component of
the handler's result (the mutations performed before the raise are kept,
exactly as they persist on the Python object).  Python dicts are modelled
as insertion-ordered association lists with an overwrite-in-place `upsert`.
-/

namespace MedeaTest

/-- mesos_pb2.TaskState values used by the script. -/
inductive TaskState where
  | taskStaging
  | taskStarting
  | taskRunning
  | taskFinished
  | taskFailed
  | taskKilled
  | taskLost
deriving DecidableEq

/-- `Scheduler.terminal = set([TASK_FINISHED, TASK_FAILED, TASK_KILLED, TASK_LOST])`
(medea-test.py lines 53-56). -/
def terminalStates : List TaskState :=
  [TaskState.taskFinished, TaskState.taskFailed, TaskState.taskKilled, TaskState.taskLost]

/-- `Scheduler.failed = set([TASK_FAILED, TASK_KILLED, TASK_LOST])`
(medea-test.py lines 57-59). -/
def failedStates : List TaskState :=
  [TaskState.taskFailed, TaskState.taskKilled, TaskState.taskLost]

/-- mesos_pb2.Status codes returned by `driver.run()` (used in `cli`, line 239). -/
inductive DriverStatus where
  | driverNotStarted
  | driverRunning
  | driverAborted
  | driverStopped
deriving DecidableEq

/-- mesos_pb2.CommandInfo.ContainerInfo: only the image field is ever set. -/
structure ContainerInfo where
  image : String
deriving DecidableEq

/-- mesos_pb2.CommandInfo as built by `command()`: value, uris, optional container. -/
structure CommandInfo where
  value : String
  uris : List String
  container : Option ContainerInfo
deriving DecidableEq

/-- A scalar resource (`cpus` / `mem`); the script only ever uses SCALAR values. -/
structure Resource where
  name : String
  scalar : Rat
deriving DecidableEq

/-- mesos_pb2.ExecutorInfo as built by `task_with_executor`. -/
structure ExecutorInfo where
  executor_id : String
  name : String
  source : String
  command : CommandInfo
deriving DecidableEq

/-- mesos_pb2.TaskInfo as built by the task factories. -/
structure TaskInfo where
  task_id : String
  slave_id : String
  name : String
  resources : List Resource
  executor : Option ExecutorInfo
  command : Option CommandInfo
deriving DecidableEq

/-- `task_base(tid, sid, cpu=0.5, ram=256)` (lines 161-174): a TaskInfo with the
two scalar resources and no executor or command yet.  No caller ever overrides
the cpu/ram defaults, so they are inlined. -/
def task_base (tid sid : String) : TaskInfo :=
  { task_id := tid
    slave_id := sid
    name := tid
    resources := [{ name := "cpus", scalar := (1 : Rat) / 2 }, { name := "mem", scalar := 256 }]
    executor := none
    command := none }

/-- `command(shell="", uris=[], image=None)` (lines 176-185).  The container
field is attached only under Python truthiness of `image`: `None` and the empty
string both skip the `if image:` branch. -/
def command (shell : String) (uris : List String) (image : Option String) : CommandInfo :=
  { value := shell
    uris := uris
    container :=
      match image with
      | some img => if img = "" then none else some { image := img }
      | none => none }

/-- `task_with_command(tid, sid, *args)` (lines 151-154). -/
def task_with_command (tid sid : String) (shell : String) (uris : List String)
    (image : Option String) : TaskInfo :=
  { task_base tid sid with command := some (command shell uris image) }

/-- `task_with_daemon(tid, sid, image)` (lines 156-159): merges
`command(image=image)`, i.e. `command("", [], image)`. -/
def task_with_daemon (tid sid image : String) : TaskInfo :=
  { task_base tid sid with command := some (command "" [] (some image)) }

/-- A status update as consumed by `statusUpdate`: `update.task_id.value` and
`update.state`. -/
structure StatusUpdate where
  task_id : String
  state : TaskState
deriving DecidableEq

/-- A resource offer as consumed by `resourceOffers`: `offer.id` and
`offer.slave_id.value`. -/
structure Offer where
  offerId : String
  slave_id : String
deriving DecidableEq

/-- Errors a handler can raise.  `keyError id` models the Python `KeyError`
raised by `self.loggers[task]` when no logger was registered for `task`;
`capacityExceeded` is the spec's `CapacityExceeded` (see `recordLaunch`). -/
inductive SchedErr where
  | keyError (id : String)
  | capacityExceeded
deriving DecidableEq

/-- Driver calls and log emissions performed by the handlers:
`driver.launchTasks`, `driver.killTask`, `driver.stop` and the `sum_up`
summary log line. -/
inductive Action where
  | launch (offerId : String) (tasks : List TaskInfo)
  | kill (taskId : String)
  | stop
  | sumUp
deriving DecidableEq

/-- Python dict assignment `d[k] = v` on an insertion-ordered association
list: overwrite in place if the key is present, else append. -/
def upsert (k : String) (v : TaskState) : List (String × TaskState) → List (String × TaskState)
  | [] => [(k, v)]
  | p :: t => if p.1 = k then (k, v) :: t else p :: upsert k v t

/-- Python dict lookup `d[k]` (first — and, keys being distinct, only —
binding for `k`). -/
def lookupS (k : String) : List (String × TaskState) → Option TaskState
  | [] => none
  | p :: t => if p.1 = k then some p.2 else lookupS k t

/-- The mutable state of a `Scheduler` object (lines 20-26): run token,
trial target, launched tasks, last-known status per task id, and the set of
registered per-task logger keys (we keep only the keys of `self.loggers`). -/
structure Scheduler where
  token : String
  trials : Nat
  tasks : List TaskInfo
  statuses : List (String × TaskState)
  loggers : List String
deriving DecidableEq

/-- `Scheduler.statusUpdate` (lines 32-35): records
`self.statuses[task] = code` and then looks up `self.loggers[task]` to log.
If the id has no registered logger the lookup raises `KeyError` — but the
status has already been recorded, so the returned state keeps the upsert. -/
def statusUpdate (s : Scheduler) (u : StatusUpdate) : Scheduler × Option SchedErr :=
  ({ s with statuses := upsert u.task_id u.state s.statuses },
   if u.task_id ∈ s.loggers then none else some (SchedErr.keyError u.task_id))

/-- `Scheduler.all_tasks_done` (lines 36-38):
`len([v for v in statuses.values() if v in terminal]) >= trials`. -/
def all_tasks_done (s : Scheduler) : Bool :=
  decide (s.trials ≤ (s.statuses.filter (fun p => decide (p.2 ∈ terminalStates))).length)

/-- The failure test in `cli` (line 242):
`any(v in Scheduler.failed for v in scheduler.statuses.values())`. -/
def hasFailure (s : Scheduler) : Bool :=
  s.statuses.any (fun p => decide (p.2 ∈ failedStates))

/-- The per-state counts computed by `Scheduler.task_status_summary`
(lines 42-47): how many task ids currently sit at code `c`. -/
def statusCount (s : Scheduler) (c : TaskState) : Nat :=
  (s.statuses.filter (fun p => decide (p.2 = c))).length

/-- Decimal digits of `n`, least significant first, with `fuel` bounding the
recursion depth (`fuel ≥ n` suffices since `n / 10 < n` for `n ≥ 1`). -/
def decDigitsAux : Nat → Nat → List Nat
  | 0, _ => []
  | _ + 1, 0 => []
  | fuel + 1, n + 1 => (n + 1) % 10 :: decDigitsAux fuel ((n + 1) / 10)

/-- Decimal digits of `n`, least significant first; `0` renders as `[0]`,
mirroring `"%d" % 0 == "0"`. -/
def decDigits (n : Nat) : List Nat := if n = 0 then [0] else decDigitsAux n n

/-- Value of a little-endian digit list; left inverse of `decDigits`. -/
def decVal : List Nat → Nat
  | [] => 0
  | d :: ds => d + 10 * decVal ds

/-- Render a digit list (most significant first) as characters. -/
def digitChars (ds : List Nat) : List Char := ds.map Nat.digitChar

/-- Read a decimal character back into a digit. -/
def charDigit (c : Char) : Nat := c.toNat - 48

/-- Numeric value of a big-endian decimal character list; leading zeros are
harmless. -/
def charsVal (cs : List Char) : Nat := decVal ((cs.map charDigit).reverse)

/-- The characters produced by Python's `"%02d" % n`: the decimal rendering
of `n`, left-padded with one `'0'` when `n < 10`. -/
def pad2chars (n : Nat) : List Char :=
  if n < 10 then '0' :: digitChars (decDigits n).reverse
  else digitChars (decDigits n).reverse

/-- `Scheduler.next_task_id` (lines 48-52): builds
`"medea-test." + "%s-task%02d" % (token, len(tasks))`, registers a logger
under the long id, and returns the long id. -/
def next_task_id (s : Scheduler) : String × Scheduler :=
  let short_id := s.token ++ "-task" ++ String.mk (pad2chars s.tasks.length)
  let long_id := "medea-test." ++ short_id
  (long_id, { s with loggers := long_id :: s.loggers })

/-- Extract the numeric suffix of a task id generated for run token `token`:
the decimal value of what follows the fixed `"medea-test.<token>-task"`
namespace. -/
def idSuffix (token id : String) : Nat :=
  charsVal (id.data.drop ("medea-test." ++ token ++ "-task").data.length)

/-- The pure state change of `Scheduler.statusUpdate` (line 34): the upsert
into `statuses` (the logging side effect touches no state). -/
def recordOnly (s : Scheduler) (u : StatusUpdate) : Scheduler := (statusUpdate s u).1

/-- Deliver a sequence of status updates to the base record-keeping handler. -/
def applyUpdates (s : Scheduler) (us : List StatusUpdate) : Scheduler :=
  us.foldl recordOnly s

/-- The distinct task ids whose last-known status is terminal. -/
def terminalIds (s : Scheduler) : Finset String :=
  ((s.statuses.filter (fun p => decide (p.2 ∈ terminalStates))).map Prod.fst).toFinset

/-- The shell command a sleep trial runs (line 109). -/
def sleepCmd (n : Nat) : String := "date -u +%T ; sleep " ++ toString n ++ " ; date -u +%T"

/-- The task built in one iteration of `SleepScheduler.resourceOffers`
(lines 107-110): id from `next_task_id`, slave from the offer, the sleep
command, the configured uris and container. -/
def sleepTask (uris : List String) (container : Option String) (sleepN : Nat)
    (s : Scheduler) (o : Offer) : TaskInfo :=
  task_with_command (next_task_id s).1 o.slave_id (sleepCmd sleepN) uris container

/-- The state after one iteration of `SleepScheduler.resourceOffers`:
`next_task_id` registered its logger, and the task was appended
(`self.tasks += [task]`, line 111). -/
def sleepLaunchState (uris : List String) (container : Option String) (sleepN : Nat)
    (s : Scheduler) (o : Offer) : Scheduler :=
  { (next_task_id s).2 with
    tasks := (next_task_id s).2.tasks ++ [sleepTask uris container sleepN s o] }

/-- `SleepScheduler.resourceOffers` (lines 101-113): for each offer, stop as
soon as `len(tasks) >= trials`; otherwise generate an id, build a command
task, append it to `tasks` and launch it on that offer.  The `time.sleep`
pacing has no effect on state and is not modelled. -/
def sleepOffers (uris : List String) (container : Option String) (sleepN : Nat) :
    Scheduler → List Offer → Scheduler × List Action
  | s, [] => (s, [])
  | s, o :: os =>
    if s.trials ≤ s.tasks.length then (s, [])
    else
      ((sleepOffers uris container sleepN (sleepLaunchState uris container sleepN s o) os).1,
       Action.launch o.offerId [sleepTask uris container sleepN s o]
         :: (sleepOffers uris container sleepN (sleepLaunchState uris container sleepN s o) os).2)

/-- `SleepScheduler.statusUpdate` (lines 96-100): record via the base
handler (a raise there aborts the rest of the callback), then, if
`all_tasks_done()`, emit the `sum_up` summary line and call `driver.stop()`. -/
def sleep_statusUpdate (s : Scheduler) (u : StatusUpdate) :
    Scheduler × List Action × Option SchedErr :=
  let r := statusUpdate s u
  match r.2 with
  | some e => (r.1, [], some e)
  | none =>
    if all_tasks_done r.1 then (r.1, [Action.sumUp, Action.stop], none)
    else (r.1, [], none)

/-- `PGScheduler.statusUpdate` (lines 119-126): record via the base handler,
kill the task when the update is TASK_RUNNING (after a fixed pause, not
modelled), then, if `all_tasks_done()`, emit the summary and stop. -/
def pg_statusUpdate (s : Scheduler) (u : StatusUpdate) :
    Scheduler × List Action × Option SchedErr :=
  let r := statusUpdate s u
  match r.2 with
  | some e => (r.1, [], some e)
  | none =>
    let kills := if u.state = TaskState.taskRunning then [Action.kill u.task_id] else []
    let stops := if all_tasks_done r.1 then [Action.sumUp, Action.stop] else []
    (r.1, kills ++ stops, none)

/-- Deliver a sequence of status updates to the sleep strategy, collecting
all driver actions in delivery order. -/
def runSleep : Scheduler → List StatusUpdate → Scheduler × List Action
  | s, [] => (s, [])
  | s, u :: us =>
    let step := sleep_statusUpdate s u
    let rest := runSleep step.1 us
    (rest.1, step.2.1 ++ rest.2)

/-- Recognize a `driver.stop()` action. -/
def isStopAct : Action → Bool
  | Action.stop => true
  | _ => false

/-- Recognize a `driver.killTask` action. -/
def isKillAct : Action → Bool
  | Action.kill _ => true
  | _ => false

/-- Number of `driver.stop()` calls in an action trace. -/
def countStop (acts : List Action) : Nat := acts.countP isStopAct

/-- Number of `driver.killTask` calls in an action trace. -/
def countKill (acts : List Action) : Nat := acts.countP isKillAct

/-- Modelled from the spec: `recordLaunch` with `CapacityExceeded` (§4.3,
§7).  The source has no separate recordLaunch operation — the guarded append
`if len(self.tasks) >= self.trials: break` / `self.tasks += [task]` inside
`resourceOffers` plays its role — so the spec's named operation is modelled
here: append the record, failing with `CapacityExceeded` at capacity. -/
def recordLaunch (t : TaskInfo) (s : Scheduler) : Except SchedErr Scheduler :=
  if s.trials ≤ s.tasks.length then Except.error SchedErr.capacityExceeded
  else Except.ok { s with tasks := s.tasks ++ [t] }

/-- The exit-code computation of `cli` (lines 238-245): `2` unless the
driver returned DRIVER_STOPPED, else `1` if any recorded status is in the
failed set, else `0`. -/
def exitCode (code : DriverStatus) (s : Scheduler) : Nat :=
  if code ≠ DriverStatus.driverStopped then 2
  else if hasFailure s then 1 else 0

/-- A concrete run state: target 2, one task already running, both loggers
registered. -/
def c1State : Scheduler :=
  { token := "aaaaaaaa", trials := 2, tasks := []
    statuses := [("medea-test.aaaaaaaa-task00", TaskState.taskRunning)]
    loggers := ["medea-test.aaaaaaaa-task00", "medea-test.aaaaaaaa-task01"] }

/-- A concrete update sequence in which the second task flaps between two
terminal states. -/
def c1Updates : List StatusUpdate :=
  [{ task_id := "medea-test.aaaaaaaa-task00", state := TaskState.taskFinished },
   { task_id := "medea-test.aaaaaaaa-task01", state := TaskState.taskFailed },
   { task_id := "medea-test.aaaaaaaa-task01", state := TaskState.taskKilled }]

/-- A concrete run state with no launched tasks and no registered loggers. -/
def c3State : Scheduler :=
  { token := "cccccccc", trials := 1, tasks := [], statuses := [], loggers := [] }

/-- A status update for an id that was never launched. -/
def c3Update : StatusUpdate :=
  { task_id := "ghost-task", state := TaskState.taskRunning }

/-- A concrete run state: one launched, logged task, no statuses yet. -/
def c6State : Scheduler :=
  { token := "bbbbbbbb", trials := 1
    tasks := [task_base "medea-test.bbbbbbbb-task00" "node0"]
    statuses := []
    loggers := ["medea-test.bbbbbbbb-task00"] }

/-- The task passes through STAGING and RUNNING before ending KILLED. -/
def c6Updates : List StatusUpdate :=
  [{ task_id := "medea-test.bbbbbbbb-task00", state := TaskState.taskStaging },
   { task_id := "medea-test.bbbbbbbb-task00", state := TaskState.taskRunning },
   { task_id := "medea-test.bbbbbbbb-task00", state := TaskState.taskKilled }]

/-- A fresh concrete run state with no tasks launched yet. -/
def c7StateA : Scheduler :=
  { token := "eeeeeeee", trials := 5, tasks := [], statuses := [], loggers := [] }

/-- The same run one launch later: one task recorded, its logger registered. -/
def c7StateB : Scheduler :=
  { token := "eeeeeeee", trials := 5
    tasks := [task_base "medea-test.eeeeeeee-task00" "node0"]
    statuses := []
    loggers := ["medea-test.eeeeeeee-task00"] }

/-- A concrete run state with a recorded RUNNING status for a known task. -/
def c8State : Scheduler :=
  { token := "dddddddd", trials := 3
    tasks := [task_base "medea-test.dddddddd-task00" "node0"]
    statuses := [("medea-test.dddddddd-task00", TaskState.taskRunning)]
    loggers := ["medea-test.dddddddd-task00"] }

/-- Re-delivery of the update already recorded in `c8State`. -/
def c8Update : StatusUpdate :=
  { task_id := "medea-test.dddddddd-task00", state := TaskState.taskRunning }

/-- A concrete sleep-strategy run: target 1, one launched and logged task. -/
def c2State : Scheduler :=
  { token := "ffffffff", trials := 1
    tasks := [task_base "medea-test.ffffffff-task00" "node0"]
    statuses := []
    loggers := ["medea-test.ffffffff-task00"] }

/-- A terminal update for the task of `c2State`, delivered (twice) below. -/
def c2Update : StatusUpdate :=
  { task_id := "medea-test.ffffffff-task00", state := TaskState.taskFinished }

/-- A fresh run with target 2 for exercising `resourceOffers`. -/
def c4State : Scheduler :=
  { token := "77777777", trials := 2, tasks := [], statuses := [], loggers := [] }

/-- Three offers delivered to `c4State` — one more than its capacity. -/
def c4Offers : List Offer :=
  [{ offerId := "o1", slave_id := "n1" }, { offerId := "o2", slave_id := "n2" },
   { offerId := "o3", slave_id := "n3" }]

/-- A run already at capacity: one task launched against a target of 1. -/
def c4FullState : Scheduler :=
  { token := "66666666", trials := 1
    tasks := [task_base "medea-test.66666666-task00" "node0"]
    statuses := []
    loggers := ["medea-test.66666666-task00"] }

/-- A run whose single trial is terminal (FINISHED) and unfailed. -/
def c5State : Scheduler :=
  { token := "99999999", trials := 1
    tasks := [task_base "medea-test.99999999-task00" "node0"]
    statuses := [("medea-test.99999999-task00", TaskState.taskFinished)]
    loggers := ["medea-test.99999999-task00"] }

theorem lookupS_upsert_same (k : String) (v : TaskState) (l : List (String × TaskState)) :
    lookupS k (upsert k v l) = some v := by
  induction l with
  | nil => simp [upsert, lookupS]
  | cons p t ih =>
    by_cases hp : p.1 = k
    · simp [upsert, lookupS, hp]
    · simp [upsert, lookupS, hp, ih]

theorem lookupS_upsert_other (k k2 : String) (v : TaskState)
    (l : List (String × TaskState)) (h : ¬k2 = k) :
    lookupS k2 (upsert k v l) = lookupS k2 l := by
  have h2 : ¬k = k2 := fun hh => h hh.symm
  induction l with
  | nil => simp [upsert, lookupS, h2]
  | cons p t ih =>
    by_cases hp : p.1 = k
    · have hq : ¬p.1 = k2 := fun hh => h2 (hp ▸ hh)
      simp [upsert, lookupS, hp, hq, h2]
    · by_cases hq : p.1 = k2
      · simp [upsert, lookupS, hp, hq, h]
      · simp [upsert, lookupS, hp, hq, ih]

theorem mem_keys_upsert (k : String) (v : TaskState) (x : String)
    (l : List (String × TaskState)) :
    x ∈ (upsert k v l).map Prod.fst ↔ x = k ∨ x ∈ l.map Prod.fst := by
  induction l with
  | nil => simp [upsert]
  | cons p t ih =>
    by_cases hp : p.1 = k
    · rw [upsert, if_pos hp]
      simp only [List.map_cons, List.mem_cons]
      rw [hp]
      tauto
    · rw [upsert, if_neg hp]
      simp only [List.map_cons, List.mem_cons, ih]
      tauto

theorem nodup_keys_upsert (k : String) (v : TaskState) (l : List (String × TaskState))
    (h : (l.map Prod.fst).Nodup) : ((upsert k v l).map Prod.fst).Nodup := by
  induction l with
  | nil => simp [upsert]
  | cons p t ih =>
    simp only [List.map_cons, List.nodup_cons] at h
    by_cases hp : p.1 = k
    · rw [upsert, if_pos hp]
      simp only [List.map_cons, List.nodup_cons]
      exact ⟨hp ▸ h.1, h.2⟩
    · rw [upsert, if_neg hp]
      simp only [List.map_cons, List.nodup_cons]
      refine ⟨?_, ih h.2⟩
      rw [mem_keys_upsert]
      push_neg
      exact ⟨hp, h.1⟩

theorem upsert_lookupS_self (k : String) (v : TaskState) (l : List (String × TaskState))
    (h : lookupS k l = some v) : upsert k v l = l := by
  induction l with
  | nil => simp [lookupS] at h
  | cons p t ih =>
    by_cases hp : p.1 = k
    · rw [lookupS, if_pos hp] at h
      obtain rfl : p.2 = v := Option.some.inj h
      rw [upsert, if_pos hp, ← hp]
    · rw [lookupS, if_neg hp] at h
      rw [upsert, if_neg hp, ih h]

theorem recordOnly_statuses (s : Scheduler) (u : StatusUpdate) :
    (recordOnly s u).statuses = upsert u.task_id u.state s.statuses := rfl

theorem applyUpdates_trials (us : List StatusUpdate) (s : Scheduler) :
    (applyUpdates s us).trials = s.trials := by
  induction us generalizing s with
  | nil => rfl
  | cons u rest ih => exact ih (recordOnly s u)

theorem applyUpdates_nodup_keys (us : List StatusUpdate) (s : Scheduler)
    (h : (s.statuses.map Prod.fst).Nodup) :
    ((applyUpdates s us).statuses.map Prod.fst).Nodup := by
  induction us generalizing s with
  | nil => exact h
  | cons u rest ih =>
    exact ih (recordOnly s u) (nodup_keys_upsert u.task_id u.state s.statuses h)

theorem lookupS_applyUpdates (us : List StatusUpdate) (s : Scheduler) (id : String) :
    lookupS id (applyUpdates s us).statuses =
      match us.reverse.find? (fun u => decide (u.task_id = id)) with
      | some u => some u.state
      | none => lookupS id s.statuses := by
  induction us generalizing s with
  | nil => rfl
  | cons u rest ih =>
    show lookupS id (applyUpdates (recordOnly s u) rest).statuses = _
    rw [ih, List.reverse_cons, List.find?_append]
    cases hf : rest.reverse.find? (fun u => decide (u.task_id = id)) with
    | some x => simp [Option.or]
    | none =>
      by_cases hu : u.task_id = id
      · subst hu
        simp [Option.or, List.find?, recordOnly_statuses, lookupS_upsert_same]
      · have hid : ¬id = u.task_id := fun hh => hu hh.symm
        simp [Option.or, List.find?, hu, recordOnly_statuses,
          lookupS_upsert_other u.task_id id u.state s.statuses hid]

theorem filter_length_eq_card (p : String × TaskState → Bool)
    (l : List (String × TaskState)) (h : (l.map Prod.fst).Nodup) :
    (l.filter p).length = ((l.filter p).map Prod.fst).toFinset.card := by
  have hs : ((l.filter p).map Prod.fst).Nodup :=
    List.Nodup.sublist ((List.filter_sublist l).map Prod.fst) h
  rw [List.toFinset_card_of_nodup hs, List.length_map]

theorem mem_iff_lookupS (k : String) (v : TaskState) (l : List (String × TaskState))
    (h : (l.map Prod.fst).Nodup) : (k, v) ∈ l ↔ lookupS k l = some v := by
  induction l with
  | nil => simp [lookupS]
  | cons p t ih =>
    simp only [List.map_cons, List.nodup_cons] at h
    by_cases hp : p.1 = k
    · rw [lookupS, if_pos hp, List.mem_cons]
      constructor
      · rintro (hh | hm)
        · rw [← congrArg Prod.snd hh]
        · exact absurd (List.mem_map_of_mem Prod.fst hm) (hp ▸ h.1)
      · intro hl
        exact Or.inl (by rw [← hp, ← Option.some.inj hl])
    · rw [lookupS, if_neg hp, List.mem_cons, ih h.2]
      constructor
      · rintro (hh | hm)
        · exact absurd (congrArg Prod.fst hh.symm) hp
        · exact hm
      · exact Or.inr

theorem decVal_decDigitsAux (fuel : Nat) : ∀ n, n ≤ fuel → decVal (decDigitsAux fuel n) = n := by
  induction fuel with
  | zero =>
    intro n h
    obtain rfl : n = 0 := Nat.le_zero.mp h
    rfl
  | succ f ih =>
    intro n h
    match n with
    | 0 => rfl
    | m + 1 =>
      show decVal ((m + 1) % 10 :: decDigitsAux f ((m + 1) / 10)) = m + 1
      rw [decVal, ih ((m + 1) / 10) (by omega)]
      omega

theorem decVal_decDigits (n : Nat) : decVal (decDigits n) = n := by
  by_cases h : n = 0
  · subst h
    rfl
  · rw [decDigits, if_neg h]
    exact decVal_decDigitsAux n n le_rfl

theorem decDigitsAux_lt10 (fuel : Nat) : ∀ n d, d ∈ decDigitsAux fuel n → d < 10 := by
  induction fuel with
  | zero =>
    intro n d hd
    simp [decDigitsAux] at hd
  | succ f ih =>
    intro n d hd
    match n with
    | 0 => simp [decDigitsAux] at hd
    | m + 1 =>
      rcases List.mem_cons.mp hd with h1 | h2
      · omega
      · exact ih ((m + 1) / 10) d h2

theorem decDigits_lt10 (n d : Nat) (hd : d ∈ decDigits n) : d < 10 := by
  by_cases h : n = 0
  · subst h
    simp [decDigits] at hd
    omega
  · rw [decDigits, if_neg h] at hd
    exact decDigitsAux_lt10 n n d hd

theorem charDigit_digitChar (d : Nat) (h : d < 10) : charDigit (Nat.digitChar d) = d := by
  interval_cases d <;> rfl

theorem map_charDigit_digitChars (ds : List Nat) (h : ∀ d ∈ ds, d < 10) :
    (digitChars ds).map charDigit = ds := by
  induction ds with
  | nil => rfl
  | cons d t ih =>
    show charDigit (Nat.digitChar d) :: (digitChars t).map charDigit = d :: t
    rw [charDigit_digitChar d (h d (List.mem_cons_self d t))]
    rw [ih (fun x hx => h x (List.mem_cons_of_mem d hx))]

theorem decVal_append_zero (l : List Nat) : decVal (l ++ [0]) = decVal l := by
  induction l with
  | nil => rfl
  | cons d t ih => rw [List.cons_append, decVal, ih, decVal]

theorem charsVal_pad2chars (n : Nat) : charsVal (pad2chars n) = n := by
  have hdig : ∀ d ∈ (decDigits n).reverse, d < 10 :=
    fun d hd => decDigits_lt10 n d (List.mem_reverse.mp hd)
  by_cases h : n < 10
  · rw [pad2chars, if_pos h, charsVal, List.map_cons,
      show charDigit '0' = 0 from rfl, List.reverse_cons, decVal_append_zero,
      map_charDigit_digitChars _ hdig, List.reverse_reverse, decVal_decDigits]
  · rw [pad2chars, if_neg h, charsVal,
      map_charDigit_digitChars _ hdig, List.reverse_reverse, decVal_decDigits]

theorem pad2chars_inj (m n : Nat) (h : pad2chars m = pad2chars n) : m = n := by
  rw [← charsVal_pad2chars m, h, charsVal_pad2chars n]

theorem string_data_append (a b : String) : (a ++ b).data = a.data ++ b.data := rfl

theorem string_data_mk (cs : List Char) : (String.mk cs).data = cs := rfl

theorem task_id_data (tok : String) (cs : List Char) :
    ("medea-test." ++ (tok ++ "-task" ++ String.mk cs)).data
      = ("medea-test." ++ tok ++ "-task").data ++ cs := by
  simp [string_data_append, string_data_mk, List.append_assoc]

theorem sleepLaunchState_tasks (uris : List String) (container : Option String)
    (sleepN : Nat) (s : Scheduler) (o : Offer) :
    (sleepLaunchState uris container sleepN s o).tasks.length = s.tasks.length + 1 := by
  show (s.tasks ++ [sleepTask uris container sleepN s o]).length = s.tasks.length + 1
  simp

theorem sleepLaunchState_trials (uris : List String) (container : Option String)
    (sleepN : Nat) (s : Scheduler) (o : Offer) :
    (sleepLaunchState uris container sleepN s o).trials = s.trials := rfl

theorem sleepOffers_spec (uris : List String) (container : Option String) (sleepN : Nat) :
    ∀ (offers : List Offer) (s : Scheduler), s.tasks.length ≤ s.trials →
      (sleepOffers uris container sleepN s offers).1.tasks.length
          = min (s.tasks.length + offers.length) s.trials
      ∧ (sleepOffers uris container sleepN s offers).2.length
          = min offers.length (s.trials - s.tasks.length)
      ∧ (sleepOffers uris container sleepN s offers).1.trials = s.trials := by
  intro offers
  induction offers with
  | nil =>
    intro s h
    refine ⟨?_, ?_, rfl⟩ <;> simp [sleepOffers] <;> omega
  | cons o os ih =>
    intro s h
    by_cases hcap : s.trials ≤ s.tasks.length
    · rw [sleepOffers, if_pos hcap]
      refine ⟨?_, ?_, rfl⟩ <;> simp <;> omega
    · have hlen := sleepLaunchState_tasks uris container sleepN s o
      have htr := sleepLaunchState_trials uris container sleepN s o
      obtain ⟨ih1, ih2, ih3⟩ :=
        ih (sleepLaunchState uris container sleepN s o) (by rw [hlen, htr]; omega)
      rw [sleepOffers, if_neg hcap]
      refine ⟨?_, ?_, ?_⟩
      · show (sleepOffers uris container sleepN
            (sleepLaunchState uris container sleepN s o) os).1.tasks.length = _
        rw [ih1, hlen, htr]
        simp only [List.length_cons]
        omega
      · have e1 := ih2
        rw [hlen, htr] at e1
        show (Action.launch o.offerId [sleepTask uris container sleepN s o]
            :: (sleepOffers uris container sleepN
                 (sleepLaunchState uris container sleepN s o) os).2).length = _
        simp only [List.length_cons]
        omega
      · show (sleepOffers uris container sleepN
            (sleepLaunchState uris container sleepN s o) os).1.trials = _
        rw [ih3, htr]

end MedeaTest

open MedeaTest

/-- C9: the daemon task factory coincides with the command task factory applied
to an empty command string, no URIs, and the same image:
`task_with_daemon tid sid image = task_with_command tid sid "" [] (some image)`. -/
theorem daemon_task_is_command_task (tid sid image : String) :
    task_with_daemon tid sid image = task_with_command tid sid "" [] (some image) := rfl

/-- C10: the command builder attaches a container exactly when the image
argument is a present, non-empty string; an empty-string image behaves exactly
like no image at all; the shell value and the URI list are attached
unconditionally. -/
theorem command_container_iff (shell : String) (uris : List String) (image : Option String) :
    ((command shell uris image).container = none ↔ image = none ∨ image = some "")
    ∧ command shell uris (some "") = command shell uris none
    ∧ (command shell uris image).value = shell
    ∧ (command shell uris image).uris = uris
    ∧ (∀ img : String,
        (command shell uris (some img)).container =
          if img = "" then none else some { image := img }) := by
  refine ⟨?_, rfl, rfl, rfl, fun img => rfl⟩
  match image with
  | none => simp [command]
  | some img =>
    by_cases h : img = "" <;> simp [command, h]

/-- C1: after any sequence of status updates, `all_tasks_done` is true iff the
number of DISTINCT task ids whose last-known status lies in the terminal set
reaches `trials` (the `Finset.card` counts each id once, so a task flapping
between terminal states is counted once); moreover the last-known status of
each id is exactly the state of the last update delivered for it.  Since the
equivalence holds after every prefix, `all_tasks_done` cannot be true before
the distinct-terminal count reaches the target. -/
theorem all_tasks_done_counts_distinct_terminal (s : Scheduler) (us : List StatusUpdate)
    (h : (s.statuses.map Prod.fst).Nodup) :
    (all_tasks_done (applyUpdates s us) = true ↔
        s.trials ≤ (terminalIds (applyUpdates s us)).card)
    ∧ ∀ id, lookupS id (applyUpdates s us).statuses =
        match us.reverse.find? (fun u => decide (u.task_id = id)) with
        | some u => some u.state
        | none => lookupS id s.statuses := by
  refine ⟨?_, fun id => lookupS_applyUpdates us s id⟩
  have hn := applyUpdates_nodup_keys us s h
  rw [all_tasks_done, decide_eq_true_iff, applyUpdates_trials, terminalIds,
    ← filter_length_eq_card _ _ hn]

/-- C1 witness: in the concrete run `c1State`/`c1Updates` (target 2, task 01
flaps FAILED→KILLED) the distinct-terminal count indeed reaches the target. -/
theorem all_tasks_done_counts_distinct_terminal_witness :
    c1State.trials ≤ (terminalIds (applyUpdates c1State c1Updates)).card :=
  (all_tasks_done_counts_distinct_terminal c1State c1Updates (by decide)).1.mp (by decide)

/-- C3 counterexample: delivering a status update for the never-launched id of
`c3Update` does NOT leave `statuses` unchanged — the Python handler assigns
`self.statuses[task] = code` before the logger lookup raises `KeyError`. -/
theorem statusUpdate_unknown_mutates_cex :
    (statusUpdate c3State c3Update).1.statuses ≠ c3State.statuses := by decide

/-- C3 amended: a status update whose id has no registered logger (i.e. was
never launched in this run) raises a `KeyError` from the `self.loggers[task]`
lookup, but only AFTER upserting `statuses[id] = state`; the error is not
caught anywhere, and the recorded status makes `statuses` hold a key outside
the launched ids, so the keys-subset invariant is not preserved. -/
theorem statusUpdate_unknown_records_then_raises (s : Scheduler) (u : StatusUpdate)
    (h : u.task_id ∉ s.loggers) :
    (statusUpdate s u).2 = some (SchedErr.keyError u.task_id)
    ∧ lookupS u.task_id (statusUpdate s u).1.statuses = some u.state := by
  refine ⟨?_, lookupS_upsert_same u.task_id u.state s.statuses⟩
  simp [statusUpdate, h]

/-- C3 witness: the amended behaviour at the concrete unknown-id update. -/
theorem statusUpdate_unknown_records_then_raises_witness :
    (statusUpdate c3State c3Update).2 = some (SchedErr.keyError c3Update.task_id)
    ∧ lookupS c3Update.task_id (statusUpdate c3State c3Update).1.statuses
        = some c3Update.state :=
  statusUpdate_unknown_records_then_raises c3State c3Update (by decide)

/-- C6: after any sequence of status updates, `hasFailure` (the `cli` failure
test over `statuses.values()`) is true iff some task id's LAST-known status is
in the failed set {FAILED, KILLED, LOST} — intermediate states a task passed
through are overwritten and do not matter. -/
theorem hasFailure_iff_failed_last_status (s : Scheduler) (us : List StatusUpdate)
    (h : (s.statuses.map Prod.fst).Nodup) :
    hasFailure (applyUpdates s us) = true ↔
      ∃ id st, lookupS id (applyUpdates s us).statuses = some st ∧ st ∈ failedStates := by
  have hn := applyUpdates_nodup_keys us s h
  rw [hasFailure, List.any_eq_true]
  constructor
  · rintro ⟨p, hp, hfail⟩
    exact ⟨p.1, p.2, (mem_iff_lookupS p.1 p.2 _ hn).mp hp, of_decide_eq_true hfail⟩
  · rintro ⟨id, st, hl, hm⟩
    exact ⟨(id, st), (mem_iff_lookupS id st _ hn).mpr hl, decide_eq_true hm⟩

/-- C6 witness: the task of `c6State` passes through STAGING and RUNNING and
ends KILLED, and `hasFailure` holds. -/
theorem hasFailure_iff_failed_last_status_witness :
    hasFailure (applyUpdates c6State c6Updates) = true :=
  (hasFailure_iff_failed_last_status c6State c6Updates (by decide)).mpr
    ⟨"medea-test.bbbbbbbb-task00", TaskState.taskKilled, by decide, by decide⟩

/-- C8: re-delivering a status update that is already the recorded last-known
status of its id leaves `statuses` — and therefore every per-state count of
`task_status_summary` — unchanged: the upsert overwrites the binding in place
with the same value and never adds a second entry for the id. -/
theorem statusUpdate_idempotent (s : Scheduler) (u : StatusUpdate)
    (h : lookupS u.task_id s.statuses = some u.state) :
    (statusUpdate s u).1.statuses = s.statuses
    ∧ ∀ c, statusCount (statusUpdate s u).1 c = statusCount s c := by
  have h1 : (statusUpdate s u).1.statuses = s.statuses :=
    upsert_lookupS_self u.task_id u.state s.statuses h
  exact ⟨h1, fun c => by simp only [statusCount, h1]⟩

/-- C8 witness: re-delivering the RUNNING update recorded in `c8State` changes
nothing. -/
theorem statusUpdate_idempotent_witness :
    (statusUpdate c8State c8Update).1.statuses = c8State.statuses :=
  (statusUpdate_idempotent c8State c8Update (by decide)).1

/-- C7: for two calls to `next_task_id` within the same run (same token) made
at different task counts, the returned ids are distinct; the id's numeric
suffix — what follows the fixed `"medea-test.<token>-task"` namespace — is
exactly the task count at generation time (so across successive launches,
which each append one task, the suffixes are strictly increasing); the id is
namespaced by the run token under the fixed `"medea-test."` prefix; and the
logging context keyed by the returned id is registered in the returned state. -/
theorem next_task_id_spec (s t : Scheduler) (htok : t.token = s.token)
    (hne : s.tasks.length ≠ t.tasks.length) :
    ((next_task_id s).1 ∈ (next_task_id s).2.loggers)
    ∧ idSuffix s.token (next_task_id s).1 = s.tasks.length
    ∧ (next_task_id s).1
        = "medea-test." ++ (s.token ++ "-task" ++ String.mk (pad2chars s.tasks.length))
    ∧ (next_task_id s).1 ≠ (next_task_id t).1 := by
  refine ⟨List.mem_cons_self _ _, ?_, rfl, ?_⟩
  · show charsVal ((("medea-test." ++ (s.token ++ "-task"
        ++ String.mk (pad2chars s.tasks.length))).data).drop
        (("medea-test." ++ s.token ++ "-task").data.length)) = s.tasks.length
    rw [task_id_data, List.drop_left]
    exact charsVal_pad2chars s.tasks.length
  · intro heq
    apply hne
    apply pad2chars_inj
    have h1 : ("medea-test." ++ (s.token ++ "-task" ++ String.mk (pad2chars s.tasks.length))).data
        = ("medea-test." ++ (t.token ++ "-task" ++ String.mk (pad2chars t.tasks.length))).data :=
      congrArg String.data heq
    rw [task_id_data, task_id_data, htok] at h1
    exact List.append_cancel_left h1

/-- C7 witness: in the concrete run, the id generated at count 0 carries
suffix 0, is properly namespaced and registered, and differs from the id
generated at count 1. -/
theorem next_task_id_spec_witness :
    ((next_task_id c7StateA).1 ∈ (next_task_id c7StateA).2.loggers)
    ∧ idSuffix c7StateA.token (next_task_id c7StateA).1 = c7StateA.tasks.length
    ∧ (next_task_id c7StateA).1
        = "medea-test."
          ++ (c7StateA.token ++ "-task" ++ String.mk (pad2chars c7StateA.tasks.length))
    ∧ (next_task_id c7StateA).1 ≠ (next_task_id c7StateB).1 :=
  next_task_id_spec c7StateA c7StateB rfl (by decide)

/-- C2 counterexample: with target 1, delivering the same terminal update
twice to the sleep strategy yields TWO `driver.stop()` calls (and two summary
lines), not exactly one — `statusUpdate` has no idempotency guard and re-runs
`sum_up(); driver.stop()` on every update processed while `all_tasks_done()`
holds. -/
theorem stop_called_twice_cex :
    countStop (runSleep c2State [c2Update, c2Update]).2 = 2 := by decide

/-- C2 amended: for a known task id, the sleep and daemon (PG) strategies
issue a summary line and a `stop` call after EVERY status update that leaves
`all_tasks_done()` true — so `stop` is first called exactly when completion
first becomes true, but later updates (e.g. duplicates delivered after the
stop) re-trigger the summary and the stop call; exactly-once holds only
because the external driver stops delivering updates once stopped.  The PG
strategy additionally issues exactly one kill per RUNNING update. -/
theorem stop_reissued_while_complete (s : Scheduler) (u : StatusUpdate)
    (h : u.task_id ∈ s.loggers) :
    countStop (sleep_statusUpdate s u).2.1
        = (if all_tasks_done (statusUpdate s u).1 then 1 else 0)
    ∧ countStop (pg_statusUpdate s u).2.1
        = (if all_tasks_done (statusUpdate s u).1 then 1 else 0)
    ∧ countKill (pg_statusUpdate s u).2.1
        = (if u.state = TaskState.taskRunning then 1 else 0) := by
  refine ⟨?_, ?_, ?_⟩
  · simp only [sleep_statusUpdate, statusUpdate, if_pos h]
    cases hc : all_tasks_done { s with statuses := upsert u.task_id u.state s.statuses } <;>
      simp [hc, countStop, isStopAct]
  · simp only [pg_statusUpdate, statusUpdate, if_pos h]
    cases hc : all_tasks_done { s with statuses := upsert u.task_id u.state s.statuses } <;>
      by_cases hr : u.state = TaskState.taskRunning <;>
        simp [hc, hr, countStop, isStopAct, List.countP_append, List.countP_cons]
  · simp only [pg_statusUpdate, statusUpdate, if_pos h]
    cases hc : all_tasks_done { s with statuses := upsert u.task_id u.state s.statuses } <;>
      by_cases hr : u.state = TaskState.taskRunning <;>
        simp [hc, hr, countKill, isKillAct, List.countP_append, List.countP_cons]

/-- C2 witness: the amended behaviour at the concrete completed state. -/
theorem stop_reissued_while_complete_witness :
    countStop (sleep_statusUpdate c2State c2Update).2.1
        = (if all_tasks_done (statusUpdate c2State c2Update).1 then 1 else 0)
    ∧ countStop (pg_statusUpdate c2State c2Update).2.1
        = (if all_tasks_done (statusUpdate c2State c2Update).1 then 1 else 0)
    ∧ countKill (pg_statusUpdate c2State c2Update).2.1
        = (if c2Update.state = TaskState.taskRunning then 1 else 0) :=
  stop_reissued_while_complete c2State c2Update (by decide)

/-- C4: for any offer batch, the sleep strategy's `resourceOffers` keeps
`len(tasks) ≤ trials` (launching exactly `min (len + offers) trials` minus the
initial count of new tasks), consumes — i.e. launches on — exactly
`min offers.length (trials - len)` offers, leaving the ones beyond capacity
unconsumed; and the spec-modelled `recordLaunch` fails with
`CapacityExceeded` instead of appending whenever the state is at capacity. -/
theorem resourceOffers_capacity (uris : List String) (container : Option String)
    (sleepN : Nat) (s : Scheduler) (offers : List Offer)
    (h : s.tasks.length ≤ s.trials) :
    (sleepOffers uris container sleepN s offers).1.tasks.length
        = min (s.tasks.length + offers.length) s.trials
    ∧ (sleepOffers uris container sleepN s offers).1.tasks.length ≤ s.trials
    ∧ (sleepOffers uris container sleepN s offers).2.length
        = min offers.length (s.trials - s.tasks.length)
    ∧ (∀ t : TaskInfo, s.trials ≤ s.tasks.length →
        recordLaunch t s = Except.error SchedErr.capacityExceeded) := by
  obtain ⟨h1, h2, h3⟩ := sleepOffers_spec uris container sleepN offers s h
  refine ⟨h1, ?_, h2, fun t ht => ?_⟩
  · rw [h1]
    omega
  · rw [recordLaunch, if_pos ht]

/-- C4 witness: three offers against capacity 2 launch exactly 2 tasks, and a
launch attempted at capacity fails with `CapacityExceeded`. -/
theorem resourceOffers_capacity_witness :
    (sleepOffers [] none 10 c4State c4Offers).1.tasks.length
        = min (c4State.tasks.length + c4Offers.length) c4State.trials
    ∧ recordLaunch (task_base "t" "n") c4FullState
        = Except.error SchedErr.capacityExceeded :=
  ⟨(resourceOffers_capacity [] none 10 c4State c4Offers (by decide)).1,
   (resourceOffers_capacity [] none 10 c4FullState [] (by decide)).2.2.2
     (task_base "t" "n") (by decide)⟩

/-- C5 counterexample: in `c5State` every trial is terminal (`all_tasks_done`)
and none failed, yet with an anomalous driver result (DRIVER_ABORTED) the
process exits 2, not 0 — `cli` decides by the driver result first and never
consults terminality, so the claim's "0 when all trials are terminal and none
failed" is false. -/
theorem exitCode_ignores_terminality_cex :
    all_tasks_done c5State = true ∧ hasFailure c5State = false
    ∧ exitCode DriverStatus.driverAborted c5State = 2 := by decide

/-- C5 amended: the exit code is 0 iff the driver ended with a normal stop
(DRIVER_STOPPED) and no task's last-known status is a failure state; 1 iff a
normal stop with at least one failure; 2 iff the driver ended in a non-stop
state.  Whether all trials are terminal is not consulted. -/
theorem exitCode_classification (code : DriverStatus) (s : Scheduler) :
    (exitCode code s = 0 ↔ code = DriverStatus.driverStopped ∧ hasFailure s = false)
    ∧ (exitCode code s = 1 ↔ code = DriverStatus.driverStopped ∧ hasFailure s = true)
    ∧ (exitCode code s = 2 ↔ code ≠ DriverStatus.driverStopped) := by
  cases hf : hasFailure s <;> cases code <;> simp [exitCode, hf]
